import Mathlib

/-!
Verification of the Daily News Briefing plugin core (generation orchestrator,
provider factory, per-topic daily cache, Gemini agentic provider) against its
natural-language specification.

The TypeScript sources are embedded shallowly:

* `main.ts` (`generateDailyNews`, `cleanupOldCache`, `buildTopicsSections`)
  becomes a pure state-passing function over an explicit `Vault` (the document
  store), the settings record (which carries the two caches) and an `Env` of
  external collaborators (the active provider call, folder/file creation
  outcomes, clock strings, the translation table).  `async`/`await` sequencing
  is straight-line; promise rejections (thrown JS errors) are `Except.error`.
* JS string `includes` is `jsIncludes`; JS objects used as string-keyed maps
  become insertion-ordered association lists with overwrite-on-assign.
* User notices and console logging have no effect on state or result and are
  not modelled.

Helpers that live in repository files not provided here (`src/utils.ts`,
`src/template/template-engine.ts`) appear either as opaque fields of `Env`
(their output is interpolated verbatim and never inspected) or as definitions
modelled from the specification, marked as such in their doc comments.
-/

/-! ## JS string containment (`String.prototype.includes`) -/

/-- Decides whether the first character list is a prefix of the second. -/
def charsHasPre : List Char → List Char → Bool
  | [], _ => true
  | _ :: _, [] => false
  | p :: ps, c :: cs => p == c && charsHasPre ps cs

/-- Decides whether `pat` occurs contiguously inside the second list. -/
def charsContains (pat : List Char) : List Char → Bool
  | [] => pat.isEmpty
  | c :: cs => charsHasPre pat (c :: cs) || charsContains pat cs

/-- JS `s.includes(pat)`: `pat` occurs as a contiguous substring of `s`. -/
def jsIncludes (s pat : String) : Bool :=
  charsContains pat.data s.data

/-- JS `s.startsWith(pre)`. -/
def jsStartsWith (s pre : String) : Bool :=
  charsHasPre pre.data s.data

theorem charsHasPre_iff (p : List Char) : ∀ s : List Char,
    charsHasPre p s = true ↔ ∃ v, s = p ++ v := by
  induction p with
  | nil =>
    intro s
    simp [charsHasPre]
  | cons a ps ih =>
    intro s
    cases s with
    | nil =>
      simp [charsHasPre]
    | cons c cs =>
      simp only [charsHasPre, Bool.and_eq_true, beq_iff_eq, ih]
      constructor
      · rintro ⟨rfl, v, rfl⟩
        exact ⟨v, rfl⟩
      · rintro ⟨v, hv⟩
        cases hv
        exact ⟨rfl, v, rfl⟩

theorem charsContains_iff (pat : List Char) : ∀ s : List Char,
    charsContains pat s = true ↔ ∃ u v, s = u ++ pat ++ v := by
  intro s
  induction s with
  | nil =>
    simp only [charsContains, List.isEmpty_iff]
    constructor
    · rintro rfl
      exact ⟨[], [], rfl⟩
    · rintro ⟨u, v, huv⟩
      rcases List.append_eq_nil.mp huv.symm with ⟨h1, h2⟩
      exact (List.append_eq_nil.mp h1).2
  | cons c cs ih =>
    simp only [charsContains, Bool.or_eq_true, ih, charsHasPre_iff]
    constructor
    · rintro (⟨v, hv⟩ | ⟨u, v, huv⟩)
      · exact ⟨[], v, by simpa using hv⟩
      · exact ⟨c :: u, v, by simp [huv]⟩
    · rintro ⟨u, v, huv⟩
      cases u with
      | nil =>
        exact Or.inl ⟨v, by simpa using huv⟩
      | cons x xs =>
        right
        have h := huv
        simp only [List.cons_append] at h
        exact ⟨xs, v, (List.cons.inj h).2⟩

theorem jsIncludes_iff (s pat : String) :
    jsIncludes s pat = true ↔ ∃ u v, s.data = u ++ pat.data ++ v := by
  exact charsContains_iff pat.data s.data

theorem jsIncludes_append_right (a b pat : String)
    (h : jsIncludes b pat = true) : jsIncludes (a ++ b) pat = true := by
  rcases (jsIncludes_iff b pat).mp h with ⟨u, v, huv⟩
  refine (jsIncludes_iff (a ++ b) pat).mpr ⟨a.data ++ u, v, ?_⟩
  simp [String.data_append, huv, List.append_assoc]

theorem jsIncludes_append_left (a b pat : String)
    (h : jsIncludes a pat = true) : jsIncludes (a ++ b) pat = true := by
  rcases (jsIncludes_iff a pat).mp h with ⟨u, v, huv⟩
  refine (jsIncludes_iff (a ++ b) pat).mpr ⟨u, v ++ b.data, ?_⟩
  simp [String.data_append, huv, List.append_assoc]

theorem jsIncludes_of_eq (s pat a b : String)
    (h : s = a ++ pat ++ b) : jsIncludes s pat = true := by
  refine (jsIncludes_iff s pat).mpr ⟨a.data, b.data, ?_⟩
  simp [h, String.data_append, List.append_assoc]

/-! ## Data model (src/types.ts) -/

/-- The legacy `apiProvider` union from `DailyNewsSettings` (src/types.ts):
exactly the fifteen pipeline identifiers the factory switches on. -/
inductive ApiProvider
  | googleGemini
  | googleGpt
  | googleGrok
  | googleClaude
  | googleOpenrouter
  | sonar
  | gpt
  | grok
  | claude
  | openrouter
  | rssGemini
  | rssGpt
  | rssClaude
  | rssGrok
  | rssOpenrouter
deriving DecidableEq, Repr, Fintype

/-- The string value each `apiProvider` union member denotes in TypeScript. -/
def apiProviderString : ApiProvider → String
  | .googleGemini => "google-gemini"
  | .googleGpt => "google-gpt"
  | .googleGrok => "google-grok"
  | .googleClaude => "google-claude"
  | .googleOpenrouter => "google-openrouter"
  | .sonar => "sonar"
  | .gpt => "gpt"
  | .grok => "grok"
  | .claude => "claude"
  | .openrouter => "openrouter"
  | .rssGemini => "rss-gemini"
  | .rssGpt => "rss-gpt"
  | .rssClaude => "rss-claude"
  | .rssGrok => "rss-grok"
  | .rssOpenrouter => "rss-openrouter"

/-- `templateType` union from `DailyNewsSettings`. -/
inductive TemplateType
  | default
  | minimal
  | detailed
  | custom
  | file
deriving DecidableEq, Repr

/-- `TopicStatus` (src/types.ts): `error?` is an optional string. -/
structure TopicStatus where
  topic : String
  retrievalSuccess : Bool
  summarizationSuccess : Bool
  newsCount : Nat
  error : Option String := none
deriving DecidableEq, Repr

/-- `TopicContent` (src/types.ts): the unit of work product and of caching. -/
structure TopicContent where
  topic : String
  content : String
  status : TopicStatus
deriving DecidableEq, Repr

/-- `DailyNewsSettings` (src/types.ts), restricted to the fields the embedded
functions read or write.  The two caches are JS objects used as string-keyed
maps, embedded as insertion-ordered association lists.  Fields the embedded
core never inspects (schedule time, quality thresholds, prompt toggles,
metadata item toggles) are omitted; the new-pipeline selector fields are kept
because claims about the cache-partitioning key quantify over them. -/
structure DailyNewsSettings where
  pipelineMode : String
  newsSource : String
  summarizer : String
  agenticProvider : String
  apiProvider : ApiProvider
  googleSearchApiKey : String
  googleSearchEngineId : String
  geminiApiKey : String
  perplexityApiKey : String
  openaiApiKey : String
  grokApiKey : String
  anthropicApiKey : String
  openrouterApiKey : String
  openrouterModel : String
  rssFeeds : List String
  topics : List String
  archiveFolder : String
  language : String
  outputFormat : String
  enableNotifications : Bool
  enableMetadata : Bool
  templateType : TemplateType
  customTemplate : String
  templateFilePath : String
  queryCache : List (String × String)
  dailyTopicCache : List (String × TopicContent)
deriving Repr

/-- JS truthiness of a string: non-empty. -/
def strTruthy (s : String) : Bool := !(s == "")

/-! ## Provider factory (src/providers/news-provider-factory.ts) -/

/-- `NewsProviderFactory.validateProviderConfig` (lines 105-140): credential
presence per pipeline.  The TS `default: return false` arm is unreachable for
the typed fifteen-member union. -/
def validateProviderConfig (s : DailyNewsSettings) : Bool :=
  match s.apiProvider with
  | .googleGemini =>
    strTruthy s.googleSearchApiKey && strTruthy s.googleSearchEngineId && strTruthy s.geminiApiKey
  | .googleGpt =>
    strTruthy s.googleSearchApiKey && strTruthy s.googleSearchEngineId && strTruthy s.openaiApiKey
  | .googleGrok =>
    strTruthy s.googleSearchApiKey && strTruthy s.googleSearchEngineId && strTruthy s.grokApiKey
  | .googleClaude =>
    strTruthy s.googleSearchApiKey && strTruthy s.googleSearchEngineId && strTruthy s.anthropicApiKey
  | .googleOpenrouter =>
    strTruthy s.googleSearchApiKey && strTruthy s.googleSearchEngineId && strTruthy s.openrouterApiKey
  | .sonar => strTruthy s.perplexityApiKey
  | .gpt => strTruthy s.openaiApiKey
  | .grok => strTruthy s.grokApiKey
  | .claude => strTruthy s.anthropicApiKey
  | .openrouter => strTruthy s.openrouterApiKey
  | .rssGemini => !s.rssFeeds.isEmpty && strTruthy s.geminiApiKey
  | .rssGpt => !s.rssFeeds.isEmpty && strTruthy s.openaiApiKey
  | .rssClaude => !s.rssFeeds.isEmpty && strTruthy s.anthropicApiKey
  | .rssGrok => !s.rssFeeds.isEmpty && strTruthy s.grokApiKey
  | .rssOpenrouter => !s.rssFeeds.isEmpty && strTruthy s.openrouterApiKey

/-- `NewsProviderFactory.getProviderName` (lines 142-177). -/
def getProviderName (s : DailyNewsSettings) : String :=
  match s.apiProvider with
  | .googleGemini => "Google Search + Gemini Summarizer"
  | .googleGpt => "Google Search + GPT Summarizer"
  | .googleGrok => "Google Search + Grok Summarizer"
  | .googleClaude => "Google Search + Claude Summarizer"
  | .googleOpenrouter => "Google Search + OpenRouter Summarizer"
  | .sonar => "Sonar by Perplexity"
  | .gpt => "GPT (Agentic Search)"
  | .grok => "Grok (Agentic Search)"
  | .claude => "Claude (Agentic Search)"
  | .openrouter => "OpenRouter (Agentic Search)"
  | .rssGemini => "RSS + Gemini Summarizer"
  | .rssGpt => "RSS + GPT Summarizer"
  | .rssClaude => "RSS + Claude Summarizer"
  | .rssGrok => "RSS + Grok Summarizer"
  | .rssOpenrouter => "RSS + OpenRouter Summarizer"

/-- The cache-partitioning provider key: `generateDailyNews` (main.ts line
406) interpolates `settings.apiProvider` verbatim into the per-topic cache
key `date_provider_topic`. -/
def getProviderKey (s : DailyNewsSettings) : String :=
  apiProviderString s.apiProvider

theorem apiProviderString_injective :
    ∀ a b : ApiProvider, apiProviderString a = apiProviderString b → a = b := by
  decide

/-! ## Gemini agentic provider
(src/providers/agentic/gemini-agentic-provider.ts) -/

/-- The catch-all error payload `fetchAndSummarizeNews` returns when the
underlying Gemini call faults (lines 91-94). -/
def geminiErrorText (topic msg : String) : String :=
  "Error fetching news about " ++ topic ++
    " from Gemini API. Please check your API key and settings.\n\nError details: " ++
    msg ++ "\n\nCheck the developer console for more information."

/-- `GeminiAgenticProvider.fetchAndSummarizeNews` (lines 20-95).  The network
call `ai.models.generateContent(...)` together with reading `response.text` is
the external collaborator `call`: `Except.error msg` is a rejected promise
with message `msg`, `Except.ok text` the (possibly empty) text of the
response.  A falsy (empty) text makes the source throw
`Invalid response format from Gemini API`, which its own catch converts into
the error payload, exactly as a rejected call is. -/
def fetchAndSummarizeNews (s : DailyNewsSettings) (topic : String)
    (call : Except String String) : String :=
  if s.geminiApiKey == "" then
    "Error: Gemini API key is not configured. Please add your API key in the plugin settings."
  else
    match call with
    | .error msg => geminiErrorText topic msg
    | .ok text =>
      if text == "" then geminiErrorText topic "Invalid response format from Gemini API"
      else text

theorem geminiErrorText_has_error_marker (topic msg : String) :
    jsIncludes (geminiErrorText topic msg) "Error" = true := by
  refine (jsIncludes_iff _ _).mpr ⟨[], (" fetching news about " ++ topic ++
    " from Gemini API. Please check your API key and settings.\n\nError details: " ++
    msg ++ "\n\nCheck the developer console for more information.").data, ?_⟩
  have hd : ("Error fetching news about " : String).data =
      ("Error" : String).data ++ (" fetching news about " : String).data := by decide
  simp [geminiErrorText, String.data_append, List.append_assoc, hd]

/-- Claim C4: the agentic provider's `fetchAndSummarizeNews` is a total
string-valued function (faults never escape the provider boundary), and
whenever the credential is missing or the underlying call faults, the
returned string contains the literal marker substring `Error`. -/
theorem gemini_fetch_error_marked (s : DailyNewsSettings) (topic : String)
    (call : Except String String)
    (h : s.geminiApiKey = "" ∨ ∃ msg, call = Except.error msg) :
    jsIncludes (fetchAndSummarizeNews s topic call) "Error" = true := by
  rcases h with hkey | ⟨msg, hcall⟩
  · have hred : fetchAndSummarizeNews s topic call =
        "Error: Gemini API key is not configured. Please add your API key in the plugin settings." := by
      simp [fetchAndSummarizeNews, hkey]
    rw [hred]
    decide
  · subst hcall
    by_cases hkey : s.geminiApiKey = ""
    · have hred : fetchAndSummarizeNews s topic (Except.error msg) =
          "Error: Gemini API key is not configured. Please add your API key in the plugin settings." := by
        simp [fetchAndSummarizeNews, hkey]
      rw [hred]
      decide
    · have hred : fetchAndSummarizeNews s topic (Except.error msg) =
          geminiErrorText topic msg := by
        simp [fetchAndSummarizeNews, hkey]
      rw [hred]
      exact geminiErrorText_has_error_marker topic msg

/-- A fixed configuration with no Gemini key, used to instantiate C4. -/
def geminiWitnessSettings : DailyNewsSettings :=
  { pipelineMode := "agentic", newsSource := "google", summarizer := "gemini",
    agenticProvider := "sonar", apiProvider := ApiProvider.googleGemini,
    googleSearchApiKey := "", googleSearchEngineId := "", geminiApiKey := "",
    perplexityApiKey := "", openaiApiKey := "", grokApiKey := "",
    anthropicApiKey := "", openrouterApiKey := "", openrouterModel := "",
    rssFeeds := [], topics := ["Tech"], archiveFolder := "News Archive",
    language := "en", outputFormat := "detailed", enableNotifications := true,
    enableMetadata := false, templateType := TemplateType.default,
    customTemplate := "", templateFilePath := "", queryCache := [],
    dailyTopicCache := [] }

theorem gemini_fetch_error_marked_witness :
    jsIncludes
      (fetchAndSummarizeNews geminiWitnessSettings "Tech" (Except.ok "anything"))
      "Error" = true :=
  gemini_fetch_error_marked geminiWitnessSettings "Tech" (Except.ok "anything") (Or.inl rfl)

/-- Claim C8: the cache-partitioning provider key is a deterministic function
of the configuration's pipeline choice alone: configurations agreeing on the
pipeline choice (however much they differ in credentials or other settings)
get equal keys, while configurations differing in the pipeline choice (the
source/summarizer combination or agentic vendor, encoded by `apiProvider`)
get distinct keys. -/
theorem providerKey_partitions (s t : DailyNewsSettings) :
    (s.apiProvider = t.apiProvider → getProviderKey s = getProviderKey t) ∧
    (s.apiProvider ≠ t.apiProvider → getProviderKey s ≠ getProviderKey t) := by
  constructor
  · intro h
    simp [getProviderKey, h]
  · intro h hk
    exact h (apiProviderString_injective _ _ hk)

/-! ## The per-topic daily cache (a JS object used as a string-keyed map) -/

/-- Reading `cache[key]` from a JS object map (keys are unique, so the first
matching entry is the entry). -/
def cacheGet : List (String × TopicContent) → String → Option TopicContent
  | [], _ => none
  | kv :: c, key => if kv.1 == key then some kv.2 else cacheGet c key

/-- Assigning `cache[key] = v` on a JS object map: overwrite in place when the
key is present, otherwise append in insertion order. -/
def cacheSet : List (String × TopicContent) → String → TopicContent →
    List (String × TopicContent)
  | [], key, v => [(key, v)]
  | kv :: c, key, v => if kv.1 == key then (key, v) :: c else kv :: cacheSet c key v

/-- `cleanupOldCache` (main.ts lines 321-338): drops every `dailyTopicCache`
entry whose key does not start with today's date followed by `_`.  The source
iterates `Object.keys` and deletes the non-matching entries; keeping exactly
the matching ones is the same map. -/
def cleanupOldCache (today : String) (cache : List (String × TopicContent)) :
    List (String × TopicContent) :=
  cache.filter (fun kv => jsStartsWith kv.1 (today ++ "_"))

/-! ## The document store (Obsidian vault adapter) -/

/-- The document store: files (path, content) and folders, keyed by path. -/
structure Vault where
  files : List (String × String)
  folders : List String
deriving Repr

/-- `app.vault.adapter.exists(path)`: true for a file or a folder at `path`. -/
def vaultExists (v : Vault) (path : String) : Bool :=
  v.files.any (fun f => f.1 == path) || v.folders.any (fun p => p == path)

/-- The content of the file at `path`, if one exists. -/
def vaultLookup (v : Vault) (path : String) : Option String :=
  match v.files.find? (fun f => f.1 == path) with
  | some f => some f.2
  | none => none

/-- A document-store operation performed during a run. -/
inductive StoreOp
  | existsCheck (path : String)
  | mkFolder (path : String)
  | createFile (path : String)
deriving DecidableEq, Repr

/-! ## The run environment: external collaborators of `generateDailyNews` -/

/-- External collaborators of a single `generateDailyNews` run.  `provider` is
the active provider's `fetchAndSummarizeNews` (an `Except.error` is a rejected
promise); `folderOk`/`createOk` decide whether `vault.createFolder` and
`vault.create` succeed at a path; `renderFault`, when set, is an unexpected
error thrown between the topic loop's end and the document write (template
construction/rendering), exercising the top-level catch.  The remaining fields
stand for helpers living in repository files not provided here
(`FileUtils.normalizePath`, `LanguageUtils.getTranslation`,
`ContentUtils.buildTableOfContents`, `ContentUtils.buildProcessingStatus`,
`MetadataUtils`, `TemplateEngine.loadTemplateFile`) and for the host clock;
their outputs are interpolated verbatim and never branched on, except for the
`noRecentNews` translation, which the classifier matches against. -/
structure Env where
  date : String
  nowTimeString : String
  provider : String → Except String String
  folderOk : String → Bool
  createOk : String → Bool
  renderFault : Option String
  normalizePath : String → String
  getTranslation : String → String
  buildTableOfContents : List String → String
  buildProcessingStatus : List TopicStatus → String
  metadataYAML : String
  loadedTemplateFile : Option String

/-- `FileUtils.normalizePath(settings.archiveFolder)` (main.ts line 387). -/
def archivePath (env : Env) (s : DailyNewsSettings) : String :=
  env.normalizePath s.archiveFolder

/-- The monthly subfolder `archiveFolder/YYYY-MM` (main.ts lines 390-391). -/
def monthlyPath (env : Env) (s : DailyNewsSettings) : String :=
  archivePath env s ++ "/" ++ env.date.take 7

/-- The deterministic document path `archiveFolder/YYYY-MM/Daily News -
YYYY-MM-DD.md` (main.ts line 392). -/
def targetFileName (env : Env) (s : DailyNewsSettings) : String :=
  monthlyPath env s ++ "/Daily News - " ++ env.date ++ ".md"

/-- The per-topic cache key `date_provider_topic` (main.ts line 406). -/
def topicCacheKey (env : Env) (s : DailyNewsSettings) (topic : String) : String :=
  env.date ++ "_" ++ getProviderKey s ++ "_" ++ topic

/-! ## Topic processing (main.ts lines 404-471) -/

/-- The error-marker test of the classifier (main.ts line 434): the returned
text contains `Error` or `error`. -/
def errCond (summary : String) : Bool :=
  jsIncludes summary "Error" || jsIncludes summary "error"

/-- The no-recent-news test of the classifier (main.ts lines 437-438): the
returned text contains the translated or the literal no-news marker. -/
def emptyCond (env : Env) (summary : String) : Bool :=
  jsIncludes summary (env.getTranslation "noRecentNews") ||
    jsIncludes summary "No recent news found"

/-- The three outcomes the orchestrator's classification can assign. -/
inductive TopicOutcome
  | error
  | empty
  | success
deriving DecidableEq, Repr

/-- Which branch of the classifier chain (main.ts lines 434-447) fires for a
given returned text. -/
def classifyOutcome (env : Env) (summary : String) : TopicOutcome :=
  if errCond summary then .error
  else if emptyCond env summary then .empty
  else .success

/-- Classification of a provider's returned text (main.ts lines 433-447):
first branch error-marked text, second branch the no-recent-news markers,
else success; yields the `TopicStatus` and the topic's section content. -/
def classifySummary (env : Env) (s : DailyNewsSettings) (topic summary : String) :
    TopicStatus × String :=
  if errCond summary then
    (⟨topic, false, false, 0,
        some (getProviderName s ++ " error for topic \"" ++ topic ++ "\"")⟩,
      "**Error processing " ++ topic ++ " with " ++ getProviderName s ++ ".**\n\n" ++
        summary ++ "\n")
  else if emptyCond env summary then
    (⟨topic, false, false, 0, some ("No news found for topic \"" ++ topic ++ "\"")⟩,
      summary ++ "\n\n")
  else
    (⟨topic, true, true, 1, none⟩, summary ++ "\n")

/-- One cache-miss topic iteration (main.ts lines 417-464): invoke the
provider; a rejected call is caught and converted into the provider-error
status and section text (lines 448-452).  Nothing else in the loop body can
fault in this model, so the outer per-topic catch (lines 454-458) has no
separate branch. -/
def processTopic (env : Env) (s : DailyNewsSettings) (topic : String) : TopicContent :=
  match env.provider topic with
  | .ok summary =>
    let r := classifySummary env s topic summary
    ⟨topic, r.2, r.1⟩
  | .error msg =>
    ⟨topic,
      "**" ++ env.getTranslation "errorRetrieving" ++ " " ++ topic ++ " using " ++
        getProviderName s ++ ".**\n\nError details: " ++ msg ++ "\n\n",
      ⟨topic, false, false, 0, some ("Provider error: " ++ msg)⟩⟩

/-- The state accumulated by the topic loop.  The source also accumulates a
`topicStatuses` array in lockstep with `topicContents`; it always equals
`contents.map (fun tc => tc.status)`, so it is not stored twice. -/
structure RunTopicsState where
  cache : List (String × TopicContent)
  contents : List TopicContent
  calls : List String
deriving Repr

/-- The topic loop of `generateDailyNews` (main.ts lines 404-471): per topic,
a cache hit is reused verbatim (content and status) with no provider call; a
miss invokes the provider, classifies, and caches the resulting
`TopicContent` under today's key (successes and failures alike).  `calls`
records the topics for which the provider was actually invoked, in order. -/
def runTopics (env : Env) (s : DailyNewsSettings) :
    List String → List (String × TopicContent) → RunTopicsState
  | [], cache => ⟨cache, [], []⟩
  | t :: ts, cache =>
    match cacheGet cache (topicCacheKey env s t) with
    | some tc =>
      let r := runTopics env s ts cache
      ⟨r.cache, tc :: r.contents, r.calls⟩
    | none =>
      let tc := processTopic env s t
      let r := runTopics env s ts (cacheSet cache (topicCacheKey env s t) tc)
      ⟨r.cache, tc :: r.contents, t :: r.calls⟩

/-- `buildTopicsSections` (main.ts lines 340-348): one `---` separator, one
`## topic` heading and the topic's content, per topic, in order. -/
def buildTopicsSections : List TopicContent → String
  | [] => ""
  | tc :: rest =>
    "\n---\n\n" ++ "## " ++ tc.topic ++ "\n\n" ++ tc.content ++ buildTopicsSections rest

/-! ## Template data and rendering -/

/-- `TemplateData` (src/types.ts), restricted to the fields whose values the
embedded run computes; the fine-grained clock placeholder fields (year, month
names, hour, ...) are verbatim host-clock strings with no logic and are
omitted. -/
structure TemplateData where
  metadata : String
  timestamp : String
  date : String
  tableOfContents : String
  topics : String
  topicContents : List TopicContent
  processingStatus : String
  language : String
  topicCount : String
  topicList : String
  topicSections : String

/-- `templateData` construction (main.ts lines 517-557). -/
def mkTemplateData (env : Env) (s : DailyNewsSettings) (contents : List TopicContent) :
    TemplateData :=
  { metadata := if s.enableMetadata then env.metadataYAML else ""
    timestamp := env.getTranslation "generatedAt" ++ " " ++ env.nowTimeString
    date := env.date
    tableOfContents := env.buildTableOfContents s.topics
    topics := buildTopicsSections contents
    topicContents := contents
    processingStatus :=
      if contents.any (fun tc => tc.status.error.isSome) then
        env.buildProcessingStatus (contents.map (fun tc => tc.status))
      else ""
    language := s.language
    topicCount := toString s.topics.length
    topicList := String.intercalate ", " s.topics
    topicSections := buildTopicsSections contents }

/-- Modelled from the spec: the Template Engine
(`src/template/template-engine.ts`) is not among the provided repository
files.  Per the spec the default layout interpolates the metadata block, the
generation timestamp, the table of contents, the topic sections and the
processing-status summary, surrounded by literal scaffolding. -/
def renderDefault (d : TemplateData) : String :=
  d.metadata ++ "*" ++ d.timestamp ++ "*\n\n---\n\n## Table of Contents\n\n" ++
    d.tableOfContents ++ "\n" ++ d.topics ++ "\n\n" ++ d.processingStatus

/-- Modelled from the spec: `renderTemplate(kind, customSource, data,
fileSource?)` selects a named layout; a missing file source falls back to the
default layout.  The minimal and detailed layouts and custom placeholder
substitution differ from the default only in scaffolding and placeholder
subset, none of which any claim inspects, so they are not distinguished
beyond kind selection; claims about document content are settled at
`kind = default`. -/
def renderTemplate (kind : TemplateType) (customSource : String) (data : TemplateData)
    (fileSource : Option String) : String :=
  match kind with
  | .custom => customSource
  | .file =>
    match fileSource with
    | some src => src
    | none => renderDefault data
  | _ => renderDefault data

/-! ## Folder and file creation (main.ts lines 489-501, 576-605) -/

/-- One `if (!(await exists(path))) await createFolder(path)` step; `ok =
false` means `createFolder` threw. -/
structure FolderResult where
  ops : List StoreOp
  vault : Vault
  ok : Bool

def ensureFolder (env : Env) (v : Vault) (path : String) : FolderResult :=
  if vaultExists v path then ⟨[.existsCheck path], v, true⟩
  else if env.folderOk path then
    ⟨[.existsCheck path, .mkFolder path], ⟨v.files, path :: v.folders⟩, true⟩
  else ⟨[.existsCheck path], v, false⟩

/-- The folder block: archive folder then monthly folder; the first failure
aborts the block (the source wraps both creations in one try/catch). -/
def ensureFolders (env : Env) (v : Vault) (a m : String) : FolderResult :=
  let r1 := ensureFolder env v a
  if r1.ok then
    let r2 := ensureFolder env r1.vault m
    ⟨r1.ops ++ r2.ops, r2.vault, r2.ok⟩
  else r1

/-- `app.vault.create(path, content)`: fails when the path already exists or
when the host store rejects the write. -/
def vaultCreate (env : Env) (v : Vault) (path content : String) : Option Vault :=
  if vaultExists v path then none
  else if env.createOk path then some ⟨(path, content) :: v.files, v.folders⟩
  else none

/-- The outcome of one `generateDailyNews` call: its return value (`none` is
the TS `null`), the settings object as mutated (the caches), the document
store, and the observable trace (provider invocations, store operations).
Notices and console output are not modelled. -/
structure RunResult where
  result : Option String
  settings : DailyNewsSettings
  vault : Vault
  providerCalls : List String
  storeOps : List StoreOp

/-! ## `generateDailyNews` (main.ts lines 361-635) -/

/-- The last-resort error note content (main.ts line 616). -/
def fallbackContent (env : Env) (msg : String) : String :=
  "# Daily News - " ++ env.date ++
    "\n\n**Error generating news**\n\nAn unexpected error occurred:\n\n```\n" ++
    msg ++ "\n```\n\nPlease check the console for more details."

/-- The top-level catch block (main.ts lines 607-634): recompute the
deterministic path, ensure both folders, write an error note containing the
fault text; if any of that fails, return `null` with no artifact.  The
settings object keeps whatever cache writes the topic loop already made. -/
def generateFallback (env : Env) (s : DailyNewsSettings) (v : Vault)
    (calls : List String) (ops : List StoreOp) (msg : String) : RunResult :=
  let fileName := targetFileName env s
  let ef := ensureFolders env v (archivePath env s) (monthlyPath env s)
  if ef.ok then
    match vaultCreate env ef.vault fileName (fallbackContent env msg) with
    | some v2 =>
      ⟨some fileName, s, v2, calls, ops ++ ef.ops ++ [.createFile fileName]⟩
    | none =>
      ⟨none, s, ef.vault, calls, ops ++ ef.ops ++ [.createFile fileName]⟩
  else ⟨none, s, ef.vault, calls, ops ++ ef.ops⟩

/-- The body of the `try` block (main.ts lines 383-605), entered once
validation passed: existence short-circuit, topic loop (mutating the daily
topic cache in settings), the RunAnalysis branch (notices/logs only — it
never changes control flow or state, lines 473-487), folder creation with
local abort, template construction and rendering (the injected
`renderFault` models an unexpected fault here, handed to the top-level
catch), document write with local abort, and on a successful write the prune
of the daily topic cache to today's entries (lines 580-590). -/
def generateRun (env : Env) (s : DailyNewsSettings) (v : Vault) : RunResult :=
  let fileName := targetFileName env s
  if vaultExists v fileName then
    ⟨some fileName, s, v, [], [.existsCheck fileName]⟩
  else
    let r := runTopics env s s.topics s.dailyTopicCache
    let s1 := { s with dailyTopicCache := r.cache }
    let ef := ensureFolders env v (archivePath env s) (monthlyPath env s)
    let ops0 := StoreOp.existsCheck fileName :: ef.ops
    if ef.ok then
      match env.renderFault with
      | some msg => generateFallback env s1 ef.vault r.calls ops0 msg
      | none =>
        let data := mkTemplateData env s1 r.contents
        let tFile :=
          if s.templateType == TemplateType.file && strTruthy s.templateFilePath then
            env.loadedTemplateFile
          else none
        let content := renderTemplate s.templateType s.customTemplate data tFile
        match vaultCreate env ef.vault fileName content with
        | some v2 =>
          let pruned := r.cache.filter (fun kv => jsStartsWith kv.1 (env.date ++ "_"))
          let s2 := { s1 with dailyTopicCache := pruned }
          ⟨some fileName, s2, v2, r.calls, ops0 ++ [.createFile fileName]⟩
        | none =>
          ⟨none, s1, ef.vault, r.calls, ops0 ++ [.createFile fileName]⟩
    else ⟨none, s1, ef.vault, r.calls, ops0⟩

/-- `generateDailyNews` (main.ts lines 361-635): configuration validation and
language-code check abort with `null` before any provider, store or cache
activity (the missing-translation branch only warns and continues); then the
`try` body runs. -/
def generateDailyNews (env : Env) (s : DailyNewsSettings) (v : Vault) : RunResult :=
  if !validateProviderConfig s then ⟨none, s, v, [], []⟩
  else if s.language.length != 2 then ⟨none, s, v, [], []⟩
  else generateRun env s v

/-! ## Association-list cache lemmas -/

theorem cacheGet_cacheSet_self (c : List (String × TopicContent)) (k : String)
    (v : TopicContent) : cacheGet (cacheSet c k v) k = some v := by
  induction c with
  | nil => simp [cacheSet, cacheGet]
  | cons kv c ih =>
    by_cases h : kv.1 = k
    · simp [cacheSet, cacheGet, h]
    · have hf : (kv.1 == k) = false := by simpa using h
      simp only [cacheSet, hf, Bool.false_eq_true, if_false, cacheGet]
      simpa [hf] using ih

theorem cacheGet_cacheSet_ne (c : List (String × TopicContent)) (k k' : String)
    (v : TopicContent) (h : k' ≠ k) : cacheGet (cacheSet c k v) k' = cacheGet c k' := by
  have hkk' : (k == k') = false := by simpa using fun e => h e.symm
  induction c with
  | nil => simp [cacheSet, cacheGet, hkk']
  | cons kv c ih =>
    by_cases hh : kv.1 = k
    · have hf : (kv.1 == k) = true := by simpa using hh
      have hne : (kv.1 == k') = false := by
        simpa using fun e => h (e.symm.trans hh)
      simp [cacheSet, cacheGet, hf, hkk', hne]
    · have hf : (kv.1 == k) = false := by simpa using hh
      cases hkv' : (kv.1 == k') with
      | true => simp [cacheSet, cacheGet, hf, hkv']
      | false =>
        simp only [cacheSet, hf, Bool.false_eq_true, if_false, cacheGet, hkv']
        exact ih

theorem cacheGet_isSome_cacheSet (c : List (String × TopicContent)) (k k' : String)
    (v : TopicContent) (h : (cacheGet c k).isSome = true) :
    (cacheGet (cacheSet c k' v) k).isSome = true := by
  by_cases hk : k = k'
  · subst hk
    simp [cacheGet_cacheSet_self]
  · rw [cacheGet_cacheSet_ne c k' k v hk]
    exact h

theorem mem_cacheSet (c : List (String × TopicContent)) (k : String)
    (v : TopicContent) (kv' : String × TopicContent) (h : kv' ∈ cacheSet c k v) :
    kv' = (k, v) ∨ kv' ∈ c := by
  induction c with
  | nil => simpa [cacheSet] using h
  | cons kv c ih =>
    by_cases hh : kv.1 = k
    · have hf : (kv.1 == k) = true := by simpa using hh
      simp only [cacheSet, hf, if_true, List.mem_cons] at h
      rcases h with h | h
      · exact Or.inl h
      · exact Or.inr (List.mem_cons_of_mem _ h)
    · have hf : (kv.1 == k) = false := by simpa using hh
      simp only [cacheSet, hf, Bool.false_eq_true, if_false, List.mem_cons] at h
      rcases h with h | h
      · exact Or.inr (h ▸ List.mem_cons_self _ _)
      · rcases ih h with h' | h'
        · exact Or.inl h'
        · exact Or.inr (List.mem_cons_of_mem _ h')

theorem cacheGet_mem (c : List (String × TopicContent)) (k : String)
    (tc : TopicContent) (h : cacheGet c k = some tc) :
    ∃ kv ∈ c, kv.1 = k ∧ kv.2 = tc := by
  induction c with
  | nil => simp [cacheGet] at h
  | cons kv c ih =>
    by_cases hh : kv.1 = k
    · have hf : (kv.1 == k) = true := by simpa using hh
      simp only [cacheGet, hf, if_true, Option.some.injEq] at h
      exact ⟨kv, List.mem_cons_self _ _, hh, h⟩
    · have hf : (kv.1 == k) = false := by simpa using hh
      simp only [cacheGet, hf, Bool.false_eq_true, if_false] at h
      rcases ih h with ⟨kv', hmem, hk, htc⟩
      exact ⟨kv', List.mem_cons_of_mem _ hmem, hk, htc⟩

/-! ## Topic-loop lemmas -/

theorem runTopics_preserves_isSome (env : Env) (s : DailyNewsSettings) (k : String) :
    ∀ (ts : List String) (c : List (String × TopicContent)),
    (cacheGet c k).isSome = true →
    (cacheGet (runTopics env s ts c).cache k).isSome = true := by
  intro ts
  induction ts with
  | nil => intro c h; simpa [runTopics] using h
  | cons t ts ih =>
    intro c h
    unfold runTopics
    cases hg : cacheGet c (topicCacheKey env s t) with
    | some tc => exact ih c h
    | none => exact ih _ (cacheGet_isSome_cacheSet c k _ _ h)

theorem runTopics_covers (env : Env) (s : DailyNewsSettings) :
    ∀ (ts : List String) (c : List (String × TopicContent)) (t : String),
    t ∈ ts →
    (cacheGet (runTopics env s ts c).cache (topicCacheKey env s t)).isSome = true := by
  intro ts
  induction ts with
  | nil => intro c t h; cases h
  | cons u ts ih =>
    intro c t h
    unfold runTopics
    cases hg : cacheGet c (topicCacheKey env s u) with
    | some tc =>
      rcases List.mem_cons.mp h with rfl | hmem
      · exact runTopics_preserves_isSome env s _ ts c (by simp [hg])
      · exact ih c t hmem
    | none =>
      rcases List.mem_cons.mp h with rfl | hmem
      · refine runTopics_preserves_isSome env s _ ts _ ?_
        simp [cacheGet_cacheSet_self]
      · exact ih _ t hmem

/-! ## Folder and path lemmas -/

theorem ensureFolder_files (env : Env) (v : Vault) (p : String) :
    (ensureFolder env v p).vault.files = v.files := by
  unfold ensureFolder
  by_cases h : vaultExists v p
  · rw [if_pos h]
  · rw [if_neg h]
    by_cases hf : env.folderOk p
    · rw [if_pos hf]
    · rw [if_neg hf]

theorem ensureFolders_files (env : Env) (v : Vault) (a m : String) :
    (ensureFolders env v a m).vault.files = v.files := by
  unfold ensureFolders
  by_cases h : (ensureFolder env v a).ok
  · rw [if_pos h]
    show (ensureFolder env (ensureFolder env v a).vault m).vault.files = v.files
    rw [ensureFolder_files, ensureFolder_files]
  · rw [if_neg h]
    exact ensureFolder_files env v a

theorem vaultExists_ensureFolder_ne (env : Env) (v : Vault) (p q : String)
    (hne : q ≠ p) : vaultExists (ensureFolder env v p).vault q = vaultExists v q := by
  unfold ensureFolder
  by_cases h : vaultExists v p
  · rw [if_pos h]
  · rw [if_neg h]
    by_cases hf : env.folderOk p
    · rw [if_pos hf]
      show vaultExists ⟨v.files, p :: v.folders⟩ q = vaultExists v q
      simp [vaultExists, List.any_cons, (by simpa using fun e => hne e.symm : (p == q) = false)]
    · rw [if_neg hf]

theorem vaultExists_ensureFolders_ne (env : Env) (v : Vault) (a m q : String)
    (ha : q ≠ a) (hm : q ≠ m) :
    vaultExists (ensureFolders env v a m).vault q = vaultExists v q := by
  unfold ensureFolders
  by_cases h : (ensureFolder env v a).ok
  · rw [if_pos h]
    show vaultExists (ensureFolder env (ensureFolder env v a).vault m).vault q = vaultExists v q
    rw [vaultExists_ensureFolder_ne env _ m q hm, vaultExists_ensureFolder_ne env v a q ha]
  · rw [if_neg h]
    exact vaultExists_ensureFolder_ne env v a q ha

theorem ensureFolder_exists_self (env : Env) (v : Vault) (p : String)
    (h : (ensureFolder env v p).ok = true) :
    vaultExists (ensureFolder env v p).vault p = true := by
  unfold ensureFolder at h ⊢
  by_cases he : vaultExists v p
  · rw [if_pos he]
    exact he
  · rw [if_neg he] at h ⊢
    by_cases hf : env.folderOk p
    · rw [if_pos hf]
      show vaultExists ⟨v.files, p :: v.folders⟩ p = true
      simp [vaultExists, List.any_cons]
    · rw [if_neg hf] at h
      exact absurd h (by simp)

theorem vaultExists_ensureFolder_mono (env : Env) (v : Vault) (p q : String)
    (h : vaultExists v q = true) :
    vaultExists (ensureFolder env v p).vault q = true := by
  unfold ensureFolder
  by_cases he : vaultExists v p
  · rw [if_pos he]
    exact h
  · rw [if_neg he]
    by_cases hf : env.folderOk p
    · rw [if_pos hf]
      show vaultExists ⟨v.files, p :: v.folders⟩ q = true
      unfold vaultExists at h ⊢
      rcases Bool.or_eq_true_iff.mp h with h1 | h2
      · simp [h1]
      · simp [List.any_cons, h2]
    · rw [if_neg hf]
      exact h

theorem ensureFolders_both_exist (env : Env) (v : Vault) (a m : String)
    (h : (ensureFolders env v a m).ok = true) :
    vaultExists (ensureFolders env v a m).vault a = true ∧
    vaultExists (ensureFolders env v a m).vault m = true := by
  unfold ensureFolders at h ⊢
  by_cases h1 : (ensureFolder env v a).ok
  · rw [if_pos h1] at h ⊢
    have h2 : (ensureFolder env (ensureFolder env v a).vault m).ok = true := h
    exact ⟨vaultExists_ensureFolder_mono env _ m a (ensureFolder_exists_self env v a h1),
      ensureFolder_exists_self env _ m h2⟩
  · rw [if_neg h1] at h
    exact absurd h h1

theorem ensureFolders_noop (env : Env) (v : Vault) (a m : String)
    (ha : vaultExists v a = true) (hm : vaultExists v m = true) :
    ensureFolders env v a m =
      ⟨[StoreOp.existsCheck a, StoreOp.existsCheck m], v, true⟩ := by
  simp [ensureFolders, ensureFolder, ha, hm]

theorem monthlyPath_length (env : Env) (s : DailyNewsSettings) :
    (archivePath env s).length < (monthlyPath env s).length := by
  unfold monthlyPath
  simp only [String.length_append]
  have : 0 < ("/" : String).length := by decide
  omega

theorem targetFileName_length (env : Env) (s : DailyNewsSettings) :
    (monthlyPath env s).length < (targetFileName env s).length := by
  unfold targetFileName
  simp only [String.length_append]
  have : 0 < ("/Daily News - " : String).length := by decide
  omega

theorem targetFileName_ne_monthlyPath (env : Env) (s : DailyNewsSettings) :
    targetFileName env s ≠ monthlyPath env s := by
  intro h
  have := targetFileName_length env s
  rw [h] at this
  omega

theorem targetFileName_ne_archivePath (env : Env) (s : DailyNewsSettings) :
    targetFileName env s ≠ archivePath env s := by
  intro h
  have h1 := targetFileName_length env s
  have h2 := monthlyPath_length env s
  rw [h] at h1
  omega

/-! ## Run-level unfolding lemmas -/

theorem generateDailyNews_valid (env : Env) (s : DailyNewsSettings) (v : Vault)
    (hvalid : validateProviderConfig s = true) (hlang : s.language.length = 2) :
    generateDailyNews env s v = generateRun env s v := by
  simp [generateDailyNews, hvalid, hlang]

theorem vaultExists_folders_target (env : Env) (s : DailyNewsSettings) (v : Vault)
    (hex : vaultExists v (targetFileName env s) = false) :
    vaultExists (ensureFolders env v (archivePath env s) (monthlyPath env s)).vault
      (targetFileName env s) = false := by
  rw [vaultExists_ensureFolders_ne env v _ _ _ (targetFileName_ne_archivePath env s)
    (targetFileName_ne_monthlyPath env s)]
  exact hex

/-- `this.settings` with its daily topic cache replaced (in-place mutation of
the cache field, as the loop and the prune do). -/
def withCache (s : DailyNewsSettings) (c : List (String × TopicContent)) :
    DailyNewsSettings :=
  { s with dailyTopicCache := c }

/-- The document text the success path writes. -/
def renderedDocument (env : Env) (s : DailyNewsSettings) : String :=
  renderTemplate s.templateType s.customTemplate
    (mkTemplateData env (withCache s (runTopics env s s.topics s.dailyTopicCache).cache)
      (runTopics env s s.topics s.dailyTopicCache).contents)
    (if s.templateType == TemplateType.file && strTruthy s.templateFilePath then
      env.loadedTemplateFile
    else none)

theorem generateRun_success (env : Env) (s : DailyNewsSettings) (v : Vault)
    (hex : vaultExists v (targetFileName env s) = false)
    (hfold : (ensureFolders env v (archivePath env s) (monthlyPath env s)).ok = true)
    (hrf : env.renderFault = none)
    (hcreate : env.createOk (targetFileName env s) = true) :
    generateRun env s v =
      ⟨some (targetFileName env s),
        withCache s ((runTopics env s s.topics s.dailyTopicCache).cache.filter
          (fun kv => jsStartsWith kv.1 (env.date ++ "_"))),
        ⟨(targetFileName env s, renderedDocument env s) ::
            (ensureFolders env v (archivePath env s) (monthlyPath env s)).vault.files,
          (ensureFolders env v (archivePath env s) (monthlyPath env s)).vault.folders⟩,
        (runTopics env s s.topics s.dailyTopicCache).calls,
        (StoreOp.existsCheck (targetFileName env s) ::
          (ensureFolders env v (archivePath env s) (monthlyPath env s)).ops) ++
          [StoreOp.createFile (targetFileName env s)]⟩ := by
  have hne := vaultExists_folders_target env s v hex
  simp only [generateRun, vaultCreate, withCache, renderedDocument, hex, hfold, hrf, hne,
    hcreate, Bool.false_eq_true, if_false, if_true]

theorem generateRun_folder_fail (env : Env) (s : DailyNewsSettings) (v : Vault)
    (hex : vaultExists v (targetFileName env s) = false)
    (hfold : (ensureFolders env v (archivePath env s) (monthlyPath env s)).ok = false) :
    generateRun env s v =
      ⟨none,
        withCache s (runTopics env s s.topics s.dailyTopicCache).cache,
        (ensureFolders env v (archivePath env s) (monthlyPath env s)).vault,
        (runTopics env s s.topics s.dailyTopicCache).calls,
        StoreOp.existsCheck (targetFileName env s) ::
          (ensureFolders env v (archivePath env s) (monthlyPath env s)).ops⟩ := by
  simp only [generateRun, withCache, hex, hfold, Bool.false_eq_true, if_false]

/-! ## Concrete run instances -/

/-- A fixed benign run environment for concrete instantiations. -/
def exEnv : Env :=
  { date := "2024-03-01", nowTimeString := "08:00:00",
    provider := fun _ => Except.ok "### Key Developments\n- Item A",
    folderOk := fun _ => true, createOk := fun _ => true, renderFault := none,
    normalizePath := fun p => p, getTranslation := fun k => k,
    buildTableOfContents := fun _ => "", buildProcessingStatus := fun _ => "",
    metadataYAML := "", loadedTemplateFile := none }

/-- An empty document store. -/
def exVault : Vault := ⟨[], []⟩

/-- A validating configuration: the agentic Sonar pipeline with its key. -/
def okSettings : DailyNewsSettings :=
  { geminiWitnessSettings with apiProvider := ApiProvider.sonar, perplexityApiKey := "k" }

/-- A store already holding today's document at the deterministic path. -/
def doneVault : Vault :=
  ⟨[("News Archive/2024-03/Daily News - 2024-03-01.md", "existing document")], []⟩

/-- An environment whose document store rejects every folder creation. -/
def noFolderEnv : Env := { exEnv with folderOk := fun _ => false }

/-! ## Claim theorems -/

/-- Claim C6: when provider configuration fails validation or the language
code is not exactly two characters long, `generateDailyNews` returns `null`
having performed no provider invocation and no document-store operation, and
having left the settings object (both the daily topic cache and the query
cache) and the document store unchanged. -/
theorem config_abort_frame (env : Env) (s : DailyNewsSettings) (v : Vault)
    (h : validateProviderConfig s = false ∨ s.language.length ≠ 2) :
    generateDailyNews env s v = ⟨none, s, v, [], []⟩ := by
  rcases h with h | h
  · simp [generateDailyNews, h]
  · by_cases hv : validateProviderConfig s
    · simp [generateDailyNews, hv, bne_iff_ne, h]
    · simp [generateDailyNews, hv]

theorem config_abort_frame_witness :
    generateDailyNews exEnv geminiWitnessSettings exVault =
      ⟨none, geminiWitnessSettings, exVault, [], []⟩ :=
  config_abort_frame exEnv geminiWitnessSettings exVault (Or.inl rfl)

/-- Claim C2 counterexample: today's document already sits at the
deterministic path, yet the call returns `null` (not that path) because the
configuration fails validation — the claim's unconditional form is false. -/
theorem idempotence_unconditional_fails :
    vaultExists doneVault (targetFileName exEnv geminiWitnessSettings) = true ∧
    (generateDailyNews exEnv geminiWitnessSettings doneVault).result = none :=
  ⟨by decide, rfl⟩

/-- Claim C2 (amended): provided the configuration validates and the language
code has exactly two characters, a call finding today's document at the
deterministic path returns that path immediately after the existence check:
no provider invocation, no other store operation, settings (hence both
caches) and the store — hence the existing document's content — unchanged;
so a second call for the same date leaves exactly the one document. -/
theorem skip_when_document_exists (env : Env) (s : DailyNewsSettings) (v : Vault)
    (hvalid : validateProviderConfig s = true)
    (hlang : s.language.length = 2)
    (hex : vaultExists v (targetFileName env s) = true) :
    generateDailyNews env s v =
      ⟨some (targetFileName env s), s, v, [],
        [StoreOp.existsCheck (targetFileName env s)]⟩ := by
  rw [generateDailyNews_valid env s v hvalid hlang]
  simp [generateRun, hex]

theorem skip_when_document_exists_witness :
    generateDailyNews exEnv okSettings doneVault =
      ⟨some (targetFileName exEnv okSettings), okSettings, doneVault, [],
        [StoreOp.existsCheck (targetFileName exEnv okSettings)]⟩ :=
  skip_when_document_exists exEnv okSettings doneVault rfl rfl (by decide)

/-- Claim C3: the classifier chain assigns every provider-returned string
exactly one of the outcomes Error, Empty, Success — the outcome exists, each
outcome is equivalent to its (mutually exclusive) branch condition, and the
assigned `TopicStatus` fields are as specified per outcome. -/
theorem classification_trichotomy (env : Env) (s : DailyNewsSettings)
    (topic summary : String) :
    (classifyOutcome env summary = .error ∨ classifyOutcome env summary = .empty ∨
      classifyOutcome env summary = .success) ∧
    (classifyOutcome env summary = .error ↔ errCond summary = true) ∧
    (classifyOutcome env summary = .empty ↔
      (errCond summary = false ∧ emptyCond env summary = true)) ∧
    (classifyOutcome env summary = .success ↔
      (errCond summary = false ∧ emptyCond env summary = false)) ∧
    (classifyOutcome env summary = .error →
      (classifySummary env s topic summary).1.retrievalSuccess = false ∧
      (classifySummary env s topic summary).1.error =
        some (getProviderName s ++ " error for topic \"" ++ topic ++ "\"")) ∧
    (classifyOutcome env summary = .empty →
      (classifySummary env s topic summary).1.error =
        some ("No news found for topic \"" ++ topic ++ "\"")) ∧
    (classifyOutcome env summary = .success →
      (classifySummary env s topic summary).1.retrievalSuccess = true ∧
      (classifySummary env s topic summary).1.summarizationSuccess = true ∧
      (classifySummary env s topic summary).1.newsCount = 1 ∧
      (classifySummary env s topic summary).1.error = none) := by
  by_cases herr : errCond summary
  · simp [classifyOutcome, classifySummary, herr]
  · by_cases hemp : emptyCond env summary
    · simp [classifyOutcome, classifySummary, herr, hemp]
    · simp [classifyOutcome, classifySummary, herr, hemp]

/-- Claim C5: pruning keeps only entries of the given day — after the
startup prune (`cleanupOldCache`, run at process start) every surviving key
starts with that day's date and `_`, and a run that reaches a successful
document write prunes again, leaving the settings' daily topic cache with
today's keys only. -/
theorem prune_keeps_only_today (env : Env) (s : DailyNewsSettings) (v : Vault)
    (cache0 : List (String × TopicContent))
    (hvalid : validateProviderConfig s = true)
    (hlang : s.language.length = 2)
    (hex : vaultExists v (targetFileName env s) = false)
    (hfold : (ensureFolders env v (archivePath env s) (monthlyPath env s)).ok = true)
    (hrf : env.renderFault = none)
    (hcreate : env.createOk (targetFileName env s) = true) :
    (∀ kv ∈ cleanupOldCache env.date cache0, jsStartsWith kv.1 (env.date ++ "_") = true) ∧
    (generateDailyNews env s v).result = some (targetFileName env s) ∧
    (∀ kv ∈ (generateDailyNews env s v).settings.dailyTopicCache,
      jsStartsWith kv.1 (env.date ++ "_") = true) := by
  refine ⟨fun kv hm => (List.mem_filter.mp hm).2, ?_, ?_⟩
  · rw [generateDailyNews_valid env s v hvalid hlang,
      generateRun_success env s v hex hfold hrf hcreate]
  · rw [generateDailyNews_valid env s v hvalid hlang,
      generateRun_success env s v hex hfold hrf hcreate]
    intro kv hm
    exact (List.mem_filter.mp hm).2

theorem prune_keeps_only_today_witness :
    (∀ kv ∈ cleanupOldCache exEnv.date [], jsStartsWith kv.1 (exEnv.date ++ "_") = true) ∧
    (generateDailyNews exEnv okSettings exVault).result =
      some (targetFileName exEnv okSettings) ∧
    (∀ kv ∈ (generateDailyNews exEnv okSettings exVault).settings.dailyTopicCache,
      jsStartsWith kv.1 (exEnv.date ++ "_") = true) :=
  prune_keeps_only_today exEnv okSettings exVault [] rfl rfl (by decide) (by decide)
    rfl rfl

/-- Claim C10: when the run aborts because folder creation fails, it returns
`null` and writes no document, but the settings' daily topic cache still
holds an entry under today's key for every configured topic — per-topic
cache writes precede the document-creation decision and are not rolled
back. -/
theorem cache_survives_folder_abort (env : Env) (s : DailyNewsSettings) (v : Vault)
    (hvalid : validateProviderConfig s = true)
    (hlang : s.language.length = 2)
    (hex : vaultExists v (targetFileName env s) = false)
    (hfold : (ensureFolders env v (archivePath env s) (monthlyPath env s)).ok = false) :
    (generateDailyNews env s v).result = none ∧
    (generateDailyNews env s v).vault.files = v.files ∧
    (∀ t ∈ s.topics,
      (cacheGet (generateDailyNews env s v).settings.dailyTopicCache
        (topicCacheKey env s t)).isSome = true) := by
  rw [generateDailyNews_valid env s v hvalid hlang,
    generateRun_folder_fail env s v hex hfold]
  exact ⟨rfl, ensureFolders_files env v _ _,
    fun t ht => runTopics_covers env s s.topics s.dailyTopicCache t ht⟩

theorem cache_survives_folder_abort_witness :
    (generateDailyNews noFolderEnv okSettings exVault).result = none ∧
    (generateDailyNews noFolderEnv okSettings exVault).vault.files = exVault.files ∧
    (∀ t ∈ okSettings.topics,
      (cacheGet (generateDailyNews noFolderEnv okSettings exVault).settings.dailyTopicCache
        (topicCacheKey noFolderEnv okSettings t)).isSome = true) :=
  cache_survives_folder_abort noFolderEnv okSettings exVault rfl rfl (by decide) (by decide)

/-! ## Claim C9: duplicate topics -/

/-- A validating configuration listing the same topic twice. -/
def dupSettings : DailyNewsSettings := { okSettings with topics := ["AI", "AI"] }

/-- Claim C9 counterexample: with the same topic configured twice and an empty
daily cache, the completed run invoked the provider exactly once — the later
occurrence was satisfied from the result the first occurrence produced, so
occurrences are not computed independently. -/
theorem duplicate_topics_single_call :
    dupSettings.topics = ["AI", "AI"] ∧
    dupSettings.dailyTopicCache = [] ∧
    (generateDailyNews exEnv dupSettings exVault).providerCalls = ["AI"] :=
  ⟨rfl, rfl, rfl⟩

/-- Claim C9 (amended): no uniqueness is enforced — each occurrence of a
duplicated topic contributes its own entry to the per-run content list — but
occurrences after the first are served verbatim from the daily cache entry
the first occurrence wrote under the shared `(date, provider, topic)` key:
the provider is invoked once and both entries are the same `TopicContent`. -/
theorem duplicate_topic_served_from_cache (env : Env) (s : DailyNewsSettings)
    (t : String) :
    runTopics env s [t, t] [] =
      ⟨[(topicCacheKey env s t, processTopic env s t)],
        [processTopic env s t, processTopic env s t], [t]⟩ := by
  simp [runTopics, cacheGet, cacheSet]

/-! ## Claim C7: top-level faults and the fallback document -/

theorem vaultLookup_eq_none (v : Vault) (p : String)
    (h : vaultExists v p = false) : vaultLookup v p = none := by
  unfold vaultExists at h
  rcases Bool.or_eq_false_iff.mp h with ⟨h1, _⟩
  unfold vaultLookup
  rw [List.find?_eq_none.mpr]
  intro f hf
  have := List.any_eq_false.mp h1 f hf
  simpa using this

theorem generateRun_render_fault (env : Env) (s : DailyNewsSettings) (v : Vault)
    (msg : String)
    (hex : vaultExists v (targetFileName env s) = false)
    (hfold : (ensureFolders env v (archivePath env s) (monthlyPath env s)).ok = true)
    (hrf : env.renderFault = some msg) :
    generateRun env s v =
      generateFallback env
        (withCache s (runTopics env s s.topics s.dailyTopicCache).cache)
        (ensureFolders env v (archivePath env s) (monthlyPath env s)).vault
        (runTopics env s s.topics s.dailyTopicCache).calls
        (StoreOp.existsCheck (targetFileName env s) ::
          (ensureFolders env v (archivePath env s) (monthlyPath env s)).ops)
        msg := by
  simp only [generateRun, withCache, hex, hfold, hrf, Bool.false_eq_true, if_false, if_true]

theorem fallbackContent_has_fault_text (env : Env) (msg : String) :
    jsIncludes (fallbackContent env msg) msg = true := by
  refine (jsIncludes_iff _ _).mpr
    ⟨("# Daily News - " ++ env.date ++
        "\n\n**Error generating news**\n\nAn unexpected error occurred:\n\n```\n").data,
      ("\n```\n\nPlease check the console for more details." : String).data, ?_⟩
  simp [fallbackContent, String.data_append, List.append_assoc]

/-- Claim C7 counterexample: a fault during folder handling (folder creation
rejected) aborts the run with `null` and no artifact at all — no best-effort
fallback document is written even though a fallback write would have
succeeded (file creation is accepted everywhere in this store). -/
theorem folder_fault_writes_no_fallback :
    noFolderEnv.createOk (targetFileName noFolderEnv okSettings) = true ∧
    (generateDailyNews noFolderEnv okSettings exVault).result = none ∧
    (generateDailyNews noFolderEnv okSettings exVault).vault.files = [] :=
  ⟨rfl, rfl, rfl⟩

/-- Claim C7 (amended): an unexpected fault raised between topic processing
and the document write (template construction/rendering) is caught at the top
level and converted into a best-effort fallback document containing the raw
fault text, at the same deterministic path; if the fallback write itself
fails, the run returns `null` having produced no artifact.  Faults in folder
creation and in the normal document write are caught locally and abort with
`null` and no fallback; per-topic provider faults never unwind past the topic
loop. -/
theorem render_fault_fallback (env : Env) (s : DailyNewsSettings) (v : Vault)
    (msg : String)
    (hvalid : validateProviderConfig s = true)
    (hlang : s.language.length = 2)
    (hex : vaultExists v (targetFileName env s) = false)
    (hfold : (ensureFolders env v (archivePath env s) (monthlyPath env s)).ok = true)
    (hrf : env.renderFault = some msg) :
    jsIncludes (fallbackContent env msg) msg = true ∧
    (env.createOk (targetFileName env s) = true →
      (generateDailyNews env s v).result = some (targetFileName env s) ∧
      vaultLookup (generateDailyNews env s v).vault (targetFileName env s) =
        some (fallbackContent env msg)) ∧
    (env.createOk (targetFileName env s) = false →
      (generateDailyNews env s v).result = none ∧
      vaultLookup (generateDailyNews env s v).vault (targetFileName env s) = none) := by
  have hgate := generateDailyNews_valid env s v hvalid hlang
  have hrun := generateRun_render_fault env s v msg hex hfold hrf
  have hboth := ensureFolders_both_exist env v (archivePath env s) (monthlyPath env s) hfold
  have hneW := vaultExists_folders_target env s v hex
  have hfn : targetFileName env
      (withCache s (runTopics env s s.topics s.dailyTopicCache).cache) =
      targetFileName env s := rfl
  have hA : archivePath env
      (withCache s (runTopics env s s.topics s.dailyTopicCache).cache) =
      archivePath env s := rfl
  have hM : monthlyPath env
      (withCache s (runTopics env s s.topics s.dailyTopicCache).cache) =
      monthlyPath env s := rfl
  have hnoop := ensureFolders_noop env
    (ensureFolders env v (archivePath env s) (monthlyPath env s)).vault
    (archivePath env s) (monthlyPath env s) hboth.1 hboth.2
  refine ⟨fallbackContent_has_fault_text env msg, ?_, ?_⟩
  · intro hok
    rw [hgate, hrun]
    simp only [generateFallback, hfn, hA, hM, hnoop, vaultCreate, hneW, hok,
      Bool.false_eq_true, if_false, if_true]
    refine ⟨by simp, by simp [vaultLookup]⟩
  · intro hko
    rw [hgate, hrun]
    simp only [generateFallback, hfn, hA, hM, hnoop, vaultCreate, hneW, hko,
      Bool.false_eq_true, if_false, if_true]
    refine ⟨by simp, vaultLookup_eq_none _ _ hneW⟩

/-- An environment in which template rendering throws. -/
def renderFaultEnv : Env := { exEnv with renderFault := some "boom" }

theorem render_fault_fallback_witness :
    jsIncludes (fallbackContent renderFaultEnv "boom") "boom" = true ∧
    (renderFaultEnv.createOk (targetFileName renderFaultEnv okSettings) = true →
      (generateDailyNews renderFaultEnv okSettings exVault).result =
        some (targetFileName renderFaultEnv okSettings) ∧
      vaultLookup (generateDailyNews renderFaultEnv okSettings exVault).vault
        (targetFileName renderFaultEnv okSettings) =
        some (fallbackContent renderFaultEnv "boom")) ∧
    (renderFaultEnv.createOk (targetFileName renderFaultEnv okSettings) = false →
      (generateDailyNews renderFaultEnv okSettings exVault).result = none ∧
      vaultLookup (generateDailyNews renderFaultEnv okSettings exVault).vault
        (targetFileName renderFaultEnv okSettings) = none) :=
  render_fault_fallback renderFaultEnv okSettings exVault "boom" rfl rfl (by decide)
    (by decide) rfl

/-! ## Claim C1: degraded completion -/

theorem string_append_left_cancel (a b c : String) (h : a ++ b = a ++ c) : b = c := by
  have hd : a.data ++ b.data = a.data ++ c.data := by
    have := congrArg String.data h
    simpa [String.data_append] using this
  exact String.ext (List.append_cancel_left hd)

theorem topicCacheKey_inj (env : Env) (s : DailyNewsSettings) (t u : String)
    (h : topicCacheKey env s t = topicCacheKey env s u) : t = u := by
  exact string_append_left_cancel (env.date ++ "_" ++ getProviderKey s ++ "_") t u h

/-- The error section the document shows for a topic whose provider call
returned error-marked text: the topic heading followed by the error banner. -/
def errSection (s : DailyNewsSettings) (topic : String) : String :=
  "## " ++ topic ++ "\n\n" ++ "**Error processing " ++ topic ++ " with " ++
    getProviderName s ++ ".**\n\n"

/-- A `TopicContent` produced by the classifier's error branch: an error is
recorded and the section content opens with the error banner. -/
def IsErrTC (s : DailyNewsSettings) (tc : TopicContent) : Prop :=
  tc.status.error.isSome = true ∧
  ∃ rest, tc.content =
    "**Error processing " ++ tc.topic ++ " with " ++ getProviderName s ++ ".**\n\n" ++ rest

theorem classifySummary_err (env : Env) (s : DailyNewsSettings) (topic summary : String)
    (h : errCond summary = true) :
    classifySummary env s topic summary =
      (⟨topic, false, false, 0,
          some (getProviderName s ++ " error for topic \"" ++ topic ++ "\"")⟩,
        "**Error processing " ++ topic ++ " with " ++ getProviderName s ++ ".**\n\n" ++
          summary ++ "\n") := by
  simp [classifySummary, h]

theorem processTopic_err (env : Env) (s : DailyNewsSettings) (t sum : String)
    (hp : env.provider t = Except.ok sum) (he : errCond sum = true) :
    (processTopic env s t).topic = t ∧ IsErrTC s (processTopic env s t) := by
  have hred : processTopic env s t =
      ⟨t,
        "**Error processing " ++ t ++ " with " ++ getProviderName s ++ ".**\n\n" ++
          sum ++ "\n",
        ⟨t, false, false, 0,
          some (getProviderName s ++ " error for topic \"" ++ t ++ "\"")⟩⟩ := by
    simp only [processTopic, hp, classifySummary_err env s t sum he]
  rw [hred]
  refine ⟨rfl, rfl, ⟨sum ++ "\n", ?_⟩⟩
  simp only [String.append_assoc]

/-- The cache invariant of an all-errors run: every entry sits under the key
of its own topic and was produced by the error branch. -/
def ErrCacheInv (env : Env) (s : DailyNewsSettings)
    (c : List (String × TopicContent)) : Prop :=
  ∀ kv ∈ c, kv.1 = topicCacheKey env s kv.2.topic ∧ IsErrTC s kv.2

theorem runTopics_all_error (env : Env) (s : DailyNewsSettings) :
    ∀ (ts : List String) (c : List (String × TopicContent)),
    (∀ t ∈ ts, ∃ sum, env.provider t = Except.ok sum ∧ errCond sum = true) →
    ErrCacheInv env s c →
    (∀ tc ∈ (runTopics env s ts c).contents, tc.status.error.isSome = true) ∧
    (∀ t ∈ ts, ∃ tc ∈ (runTopics env s ts c).contents, tc.topic = t ∧ IsErrTC s tc) := by
  intro ts
  induction ts with
  | nil =>
    intro c _ _
    constructor
    · intro tc h
      simp [runTopics] at h
    · intro t h
      cases h
  | cons u ts ih =>
    intro c hall hc
    rcases hall u (List.mem_cons_self u ts) with ⟨sum, hp, he⟩
    have hrest : ∀ t ∈ ts, ∃ sum, env.provider t = Except.ok sum ∧ errCond sum = true :=
      fun t ht => hall t (List.mem_cons_of_mem _ ht)
    unfold runTopics
    cases hg : cacheGet c (topicCacheKey env s u) with
    | some tc =>
      rcases cacheGet_mem c _ tc hg with ⟨kv, hmem, hk1, hk2⟩
      have hinv := hc kv hmem
      have htopic : tc.topic = u := by
        have hkeys : topicCacheKey env s kv.2.topic = topicCacheKey env s u := by
          rw [← hinv.1, hk1]
        have := topicCacheKey_inj env s kv.2.topic u hkeys
        rw [← this, hk2]
      have herrtc : IsErrTC s tc := hk2 ▸ hinv.2
      obtain ⟨hstat, hcov⟩ := ih c hrest hc
      refine ⟨?_, ?_⟩
      · intro tc' h
        rcases List.mem_cons.mp h with rfl | h'
        · exact herrtc.1
        · exact hstat tc' h'
      · intro t ht
        rcases List.mem_cons.mp ht with rfl | ht'
        · exact ⟨tc, List.mem_cons_self _ _, htopic, herrtc⟩
        · rcases hcov t ht' with ⟨tc', hm, hto, herr'⟩
          exact ⟨tc', List.mem_cons_of_mem _ hm, hto, herr'⟩
    | none =>
      have hpt := processTopic_err env s u sum hp he
      have hinv' : ErrCacheInv env s
          (cacheSet c (topicCacheKey env s u) (processTopic env s u)) := by
        intro kv hmem
        rcases mem_cacheSet c _ _ kv hmem with rfl | hmem'
        · exact ⟨by rw [hpt.1], hpt.2⟩
        · exact hc kv hmem'
      obtain ⟨hstat, hcov⟩ := ih _ hrest hinv'
      refine ⟨?_, ?_⟩
      · intro tc' h
        rcases List.mem_cons.mp h with rfl | h'
        · exact hpt.2.1
        · exact hstat tc' h'
      · intro t ht
        rcases List.mem_cons.mp ht with rfl | ht'
        · exact ⟨processTopic env s t, List.mem_cons_self _ _, hpt.1, hpt.2⟩
        · rcases hcov t ht' with ⟨tc', hm, hto, herr'⟩
          exact ⟨tc', List.mem_cons_of_mem _ hm, hto, herr'⟩

theorem buildTopicsSections_err_section (s : DailyNewsSettings) :
    ∀ (l : List TopicContent) (tc : TopicContent), tc ∈ l → IsErrTC s tc →
    jsIncludes (buildTopicsSections l) (errSection s tc.topic) = true := by
  intro l
  induction l with
  | nil =>
    intro tc h
    cases h
  | cons hd rest ih =>
    intro tc hmem herr
    rcases List.mem_cons.mp hmem with rfl | hmem'
    · rcases herr.2 with ⟨rem, hcontent⟩
      refine (jsIncludes_iff _ _).mpr
        ⟨("\n---\n\n" : String).data, rem.data ++ (buildTopicsSections rest).data, ?_⟩
      simp [buildTopicsSections, errSection, hcontent, String.data_append,
        List.append_assoc]
    · exact jsIncludes_append_right _ _ _ (ih tc hmem' herr)

theorem renderDefault_topics_infix (d : TemplateData) (pat : String)
    (h : jsIncludes d.topics pat = true) : jsIncludes (renderDefault d) pat = true := by
  unfold renderDefault
  exact jsIncludes_append_left _ _ _
    (jsIncludes_append_left _ _ _ (jsIncludes_append_right _ _ _ h))

/-- Claim C1: a run in which every topic's provider call returns error-marked
text (so no topic succeeds) still creates the document at the deterministic
path: the call returns the path, the document is stored there, it contains
one error section per configured topic, and the run ends with every topic's
status carrying an error — published with errors rather than aborted with no
artifact. -/
theorem degraded_run_still_publishes (env : Env) (s : DailyNewsSettings) (v : Vault)
    (hvalid : validateProviderConfig s = true)
    (hlang : s.language.length = 2)
    (hcache : s.dailyTopicCache = [])
    (htpl : s.templateType = TemplateType.default)
    (hex : vaultExists v (targetFileName env s) = false)
    (hfold : (ensureFolders env v (archivePath env s) (monthlyPath env s)).ok = true)
    (hrf : env.renderFault = none)
    (hcreate : env.createOk (targetFileName env s) = true)
    (hprov : ∀ t ∈ s.topics, ∃ sum, env.provider t = Except.ok sum ∧ errCond sum = true) :
    (generateDailyNews env s v).result = some (targetFileName env s) ∧
    vaultLookup (generateDailyNews env s v).vault (targetFileName env s) =
      some (renderedDocument env s) ∧
    (∀ t ∈ s.topics, jsIncludes (renderedDocument env s) (errSection s t) = true) ∧
    (∀ tc ∈ (runTopics env s s.topics s.dailyTopicCache).contents,
      tc.status.error.isSome = true) := by
  have hgate := generateDailyNews_valid env s v hvalid hlang
  have hrun := generateRun_success env s v hex hfold hrf hcreate
  have hc0 : ErrCacheInv env s s.dailyTopicCache := by
    rw [hcache]
    intro kv h
    cases h
  obtain ⟨hstat, hcov⟩ := runTopics_all_error env s s.topics s.dailyTopicCache hprov hc0
  have hdoc : renderedDocument env s =
      renderDefault (mkTemplateData env
        (withCache s (runTopics env s s.topics s.dailyTopicCache).cache)
        (runTopics env s s.topics s.dailyTopicCache).contents) := by
    simp [renderedDocument, renderTemplate, htpl]
  refine ⟨?_, ?_, ?_, hstat⟩
  · rw [hgate, hrun]
  · rw [hgate, hrun]
    simp [vaultLookup]
  · intro t ht
    rcases hcov t ht with ⟨tc, hmem, htop, herr⟩
    have hsec := buildTopicsSections_err_section s _ tc hmem herr
    rw [htop] at hsec
    rw [hdoc]
    exact renderDefault_topics_infix _ _ (by simpa [mkTemplateData] using hsec)

/-- An environment whose provider returns error-marked text for every topic. -/
def errProviderEnv : Env :=
  { exEnv with provider := fun _ => Except.ok "Error: quota exceeded" }

theorem degraded_run_still_publishes_witness :
    (generateDailyNews errProviderEnv okSettings exVault).result =
      some (targetFileName errProviderEnv okSettings) ∧
    vaultLookup (generateDailyNews errProviderEnv okSettings exVault).vault
      (targetFileName errProviderEnv okSettings) =
      some (renderedDocument errProviderEnv okSettings) ∧
    (∀ t ∈ okSettings.topics,
      jsIncludes (renderedDocument errProviderEnv okSettings) (errSection okSettings t) =
        true) ∧
    (∀ tc ∈ (runTopics errProviderEnv okSettings okSettings.topics
        okSettings.dailyTopicCache).contents,
      tc.status.error.isSome = true) :=
  degraded_run_still_publishes errProviderEnv okSettings exVault rfl rfl rfl rfl
    (by decide) (by decide) rfl rfl
    (fun t _ => ⟨"Error: quota exceeded", rfl, by decide⟩)
